import Mathlib

/-!
Verification of the QToggle widget (`src/QToggle.py`), a custom toggle
switch derived from QCheckBox.  The widget's mutable state is embedded as a
Lean structure; each method of the class becomes a pure function from state
to state (together with the list of property animations it creates, where
relevant).  Positions are rational numbers, colors are RGB triples.
-/

/-- An RGB color, the shallow embedding of `QColor`.  `QColor("#0BF")`
expands each hex digit, giving `⟨0x00, 0xBB, 0xFF⟩`. -/
structure Color where
  r : Nat
  g : Nat
  b : Nat
deriving Repr, DecidableEq

/-- A point with integer coordinates, embedding `QPoint`. -/
structure Point where
  x : ℤ
  y : ℤ
deriving Repr, DecidableEq

/-- A rectangle given by top-left corner and size, embedding `QRect`. -/
structure Rect where
  x : ℤ
  y : ℤ
  w : ℤ
  h : ℤ
deriving Repr, DecidableEq

/-- `QRect.contains` for a non-flipped rectangle: the right edge is
`x + w - 1` and the bottom edge is `y + h - 1`. -/
def Rect.containsB (r : Rect) (p : Point) : Bool :=
  decide (r.x ≤ p.x) && decide (p.x ≤ r.x + r.w - 1) &&
  decide (r.y ≤ p.y) && decide (p.y ≤ r.y + r.h - 1)

/-- The easing curves of `QEasingCurve.Type` used by the model. -/
inductive EasingCurve where
  | Linear
  | InOutCubic
deriving Repr, DecidableEq

/-- The two animatable `pyqtProperty` targets of the widget. -/
inductive AnimProp where
  | circle_pos
  | intermediate_bg_color
deriving Repr, DecidableEq

/-- A value carried by an animation: a position or a color. -/
inductive AnimValue where
  | pos (q : ℚ)
  | color (c : Color)
deriving Repr, DecidableEq

/-- A `QPropertyAnimation` as configured by the widget: target property,
easing curve, duration in milliseconds, start and end values, and whether
`start()` has been called on it. -/
structure Animation where
  prop : AnimProp
  easing : EasingCurve
  duration : ℕ
  startValue : AnimValue
  endValue : AnimValue
  started : Bool
deriving Repr, DecidableEq

/-- The mutable state of a `QToggle` instance: the five color properties,
the two animated properties (`None` until first written), geometry,
animation duration, the user-interaction flag, and the inherited checkbox
state (`checked`, `enabled`, contents margins, widget width). -/
structure QToggleState where
  bg_color : Color
  circle_color : Color
  active_color : Color
  disabled_color : Color
  text_color : Color
  circle_pos : Option ℚ
  intermediate_bg_color : Option Color
  height : ℕ
  width : ℕ
  animation_duration : ℕ
  user_checked : Bool
  checked : Bool
  enabled : Bool
  marginLeft : ℤ
  marginTop : ℤ
  marginRight : ℤ
  marginBottom : ℤ
deriving Repr, DecidableEq

/-- `QToggle.__init__`: default colors `#0BF`, `#DDD`, `#777`, `#CCC`,
`#000`, uninitialized `circle_pos` and `intermediate_bg_color`, fixed
height 18, duration 500 ms, flag cleared.  The inherited checkbox starts
unchecked, enabled, with zero contents margins; the width is set later by
the layout (0 here). -/
def QToggle_init : QToggleState where
  bg_color := ⟨0x00, 0xBB, 0xFF⟩
  circle_color := ⟨0xDD, 0xDD, 0xDD⟩
  active_color := ⟨0x77, 0x77, 0x77⟩
  disabled_color := ⟨0xCC, 0xCC, 0xCC⟩
  text_color := ⟨0x00, 0x00, 0x00⟩
  circle_pos := none
  intermediate_bg_color := none
  height := 18
  width := 0
  animation_duration := 500
  user_checked := false
  checked := false
  enabled := true
  marginLeft := 0
  marginTop := 0
  marginRight := 0
  marginBottom := 0

/-- Setter of the `bg_color` property. -/
def set_bg_color (s : QToggleState) (col : Color) : QToggleState :=
  { s with bg_color := col }

/-- Setter of the `circle_color` property. -/
def set_circle_color (s : QToggleState) (col : Color) : QToggleState :=
  { s with circle_color := col }

/-- Setter of the `active_color` property. -/
def set_active_color (s : QToggleState) (col : Color) : QToggleState :=
  { s with active_color := col }

/-- Setter of the `disabled_color` property. -/
def set_disabled_color (s : QToggleState) (col : Color) : QToggleState :=
  { s with disabled_color := col }

/-- Setter of the `text_color` property. -/
def set_text_color (s : QToggleState) (col : Color) : QToggleState :=
  { s with text_color := col }

/-- `QToggle.setDuration`: store the animation duration in milliseconds. -/
def setDuration (s : QToggleState) (duration : ℕ) : QToggleState :=
  { s with animation_duration := duration }

/-- `QToggle.update_pos_color`: snap the circle position to
`height * 1.1` or `height * 0.1` according to the `checked` argument, and
set the intermediate background color from `isChecked()` (the stored
`checked` field). -/
def update_pos_color (s : QToggleState) (checked : Bool) : QToggleState :=
  { s with
      circle_pos := some ((s.height : ℚ) * (if checked then 11/10 else 1/10)),
      intermediate_bg_color :=
        some (if s.checked then s.active_color else s.bg_color) }

/-- `QToggle._create_common_animation`: an animation on `prop` with the
InOutCubic easing curve and the configured duration, running from
`start_val` to `end_val` when `state` is truthy and in reverse otherwise.
It is returned not yet started. -/
def create_common_animation (s : QToggleState) (state : Bool)
    (prop : AnimProp) (start_val end_val : AnimValue) : Animation where
  prop := prop
  easing := EasingCurve.InOutCubic
  duration := s.animation_duration
  startValue := if state then start_val else end_val
  endValue := if state then end_val else start_val
  started := false

/-- `QToggle.create_animation`: the circle-position animation between
`height * 0.1` and `height * 1.1`. -/
def create_animation (s : QToggleState) (state : Bool) : Animation :=
  create_common_animation s state AnimProp.circle_pos
    (AnimValue.pos ((s.height : ℚ) * (1/10)))
    (AnimValue.pos ((s.height : ℚ) * (11/10)))

/-- `QToggle.create_bg_color_animation`: the background-color animation
between `bg_color` and `active_color`. -/
def create_bg_color_animation (s : QToggleState) (state : Bool) : Animation :=
  create_common_animation s state AnimProp.intermediate_bg_color
    (AnimValue.color s.bg_color) (AnimValue.color s.active_color)

/-- `animation.start()`. -/
def startAnim (a : Animation) : Animation :=
  { a with started := true }

/-- `QToggle.start_transition`, the slot connected to `stateChanged`:
when the user-interaction flag is clear it snaps via `update_pos_color`
and creates no animation; when the flag is set it creates and starts both
animations and resets the flag.  The result is the new state together with
the list of animations created (each already started). -/
def start_transition (s : QToggleState) (state : Bool) :
    QToggleState × List Animation :=
  if s.user_checked then
    ({ s with user_checked := false },
     [startAnim (create_animation s state),
      startAnim (create_bg_color_animation s state)])
  else
    (update_pos_color s state, [])

/-- `QToggle.mousePressEvent`: set the user-interaction flag (the base
class handles the rest of the press). -/
def mousePressEvent (s : QToggleState) : QToggleState :=
  { s with user_checked := true }

/-- `QCheckBox.setChecked`: change the stored state; `stateChanged` fires
(running `start_transition` with the new state) only when the state
actually changes. -/
def setChecked (s : QToggleState) (b : Bool) : QToggleState × List Animation :=
  if s.checked = b then (s, [])
  else start_transition { s with checked := b } b

/-- A full user click: the press sets the flag, the release toggles the
checkbox, which fires `stateChanged`. -/
def userClick (s : QToggleState) : QToggleState × List Animation :=
  let s1 := mousePressEvent s
  setChecked s1 (!s1.checked)

/-- `QToggle.showEvent`: snap position and color from the current checked
state. -/
def showEvent (s : QToggleState) : QToggleState :=
  update_pos_color s s.checked

/-- `QToggle.resizeEvent`: snap position and color from the current
checked state. -/
def resizeEvent (s : QToggleState) : QToggleState :=
  update_pos_color s s.checked

/-- Python `int()` applied to a rational number: truncation toward zero. -/
def pyInt (q : ℚ) : ℤ :=
  if 0 ≤ q then ⌊q⌋ else ⌈q⌉

/-- `QToggle.sizeHint`: take the base checkbox hint `baseHint`, replace
its width with `int(height * 2 + text_width * 1.075)` and keep its
height.  `textWidth` is the pixel width of the bounding rectangle of the
widget's text in its font. -/
def sizeHint (s : QToggleState) (baseHint : ℤ × ℤ) (textWidth : ℕ) : ℤ × ℤ :=
  (pyInt ((s.height : ℚ) * 2 + (textWidth : ℚ) * (43/40)), baseHint.2)

/-- `QWidget.contentsRect`: the widget rectangle shrunk by the contents
margins. -/
def contentsRect (s : QToggleState) : Rect where
  x := s.marginLeft
  y := s.marginTop
  w := (s.width : ℤ) - s.marginLeft - s.marginRight
  h := (s.height : ℤ) - s.marginTop - s.marginBottom

/-- `QToggle.hitButton`: a press hits the button exactly when it falls in
the contents rectangle. -/
def hitButton (s : QToggleState) (pos : Point) : Bool :=
  (contentsRect s).containsB pos

/-- Everything `QToggle.paintEvent` draws: the colors of the rounded-rect
background, the circle and the text, and the painted geometry. -/
structure PaintOut where
  bgColor : Color
  circleColor : Color
  textColor : Color
  borderRadius : ℚ
  toggleWidth : ℚ
  circleX : ℚ
  circleY : ℚ
  circleSize : ℚ
deriving Repr, DecidableEq

/-- `QToggle.paintEvent`: when disabled every element is painted with
`disabled_color`; when enabled the background uses
`intermediate_bg_color`, the circle `circle_color` and the text
`text_color`.  Reading an uninitialized (`None`) `intermediate_bg_color`
(through `QColor(...)`) or `circle_pos` (through `addEllipse`) raises, so
the paint produces no output (`none`): the routine has no guard. -/
def paintEvent (s : QToggleState) : Option PaintOut :=
  let circleColor := if s.enabled then s.circle_color else s.disabled_color
  match (if s.enabled then s.intermediate_bg_color else some s.disabled_color) with
  | none => none
  | some bgColor =>
    let textColor := if s.enabled then s.text_color else s.disabled_color
    match s.circle_pos with
    | none => none
    | some cp =>
      some { bgColor := bgColor
             circleColor := circleColor
             textColor := textColor
             borderRadius := (s.height : ℚ) / 2
             toggleWidth := (s.height : ℚ) * 2
             circleX := cp
             circleY := (s.height : ℚ) * (1/10)
             circleSize := (s.height : ℚ) * (8/10) }

/-- C1: on a state change, the slide and color animations are created and
started exactly when the press flag `_user_checked` is set (the
user-initiated case); with the flag clear — in particular after a
programmatic `setChecked` — no animation is produced and the position and
color snap instantly through `update_pos_color`. -/
theorem animation_iff_user_initiated
    (s : QToggleState) (st : Bool) (b : Bool) :
    (start_transition s st =
      if s.user_checked then
        ({ s with user_checked := false },
         [startAnim (create_animation s st),
          startAnim (create_bg_color_animation s st)])
      else (update_pos_color s st, [])) ∧
    ((start_transition s st).2 ≠ [] ↔ s.user_checked = true) ∧
    ((start_transition s st).2.all (fun a => a.started) = true) ∧
    (setChecked { s with user_checked := false } b).2 = [] ∧
    ((setChecked { s with user_checked := false } b).1 =
      if s.checked = b then { s with user_checked := false }
      else update_pos_color { s with user_checked := false, checked := b } b) := by
  refine ⟨rfl, ?_, ?_, ?_, ?_⟩
  · by_cases h : s.user_checked <;> simp [start_transition, h]
  · by_cases h : s.user_checked <;> simp [start_transition, h, startAnim]
  · by_cases h : s.checked = b <;> simp [setChecked, start_transition, h]
  · by_cases h : s.checked = b <;> simp [setChecked, start_transition, h]

/-- C2: `update_pos_color` snaps the circle position to `height * 1.1`
when the new state is checked and `height * 0.1` otherwise, and sets the
intermediate background color to `active_color` when the widget is
checked and to `bg_color` otherwise; the show and resize events, and any
non-user-initiated state change, go through it. -/
theorem update_pos_color_snaps (s : QToggleState) (checked : Bool) :
    (update_pos_color s checked).circle_pos =
      some ((s.height : ℚ) * (if checked then 11/10 else 1/10)) ∧
    (update_pos_color s checked).intermediate_bg_color =
      some (if s.checked then s.active_color else s.bg_color) ∧
    showEvent s = update_pos_color s s.checked ∧
    resizeEvent s = update_pos_color s s.checked ∧
    start_transition { s with user_checked := false } checked =
      (update_pos_color { s with user_checked := false } checked, []) := by
  refine ⟨rfl, rfl, rfl, rfl, ?_⟩
  simp [start_transition]

/-- C7: a newly constructed `QToggle` has background color `#0BF`, circle
color `#DDD`, active color `#777`, disabled color `#CCC`, text color
`#000`, fixed height 18, animation duration 500 ms, and the
user-initiated flag cleared. -/
theorem init_defaults :
    QToggle_init.bg_color = ⟨0x00, 0xBB, 0xFF⟩ ∧
    QToggle_init.circle_color = ⟨0xDD, 0xDD, 0xDD⟩ ∧
    QToggle_init.active_color = ⟨0x77, 0x77, 0x77⟩ ∧
    QToggle_init.disabled_color = ⟨0xCC, 0xCC, 0xCC⟩ ∧
    QToggle_init.text_color = ⟨0x00, 0x00, 0x00⟩ ∧
    QToggle_init.height = 18 ∧
    QToggle_init.animation_duration = 500 ∧
    QToggle_init.user_checked = false := by
  exact ⟨rfl, rfl, rfl, rfl, rfl, rfl, rfl, rfl⟩

/-- C9: after any execution of `start_transition` the flag
`_user_checked` is `false` (reset on the animated path, already clear on
the snap path), so a run of `start_transition` immediately following
another one never animates: each mouse press yields at most one animated
state change. -/
theorem user_flag_reset_after_transition
    (s : QToggleState) (st st' : Bool) :
    (start_transition s st).1.user_checked = false ∧
    (start_transition (start_transition s st).1 st').2 = [] := by
  have h1 : (start_transition s st).1.user_checked = false := by
    by_cases h : s.user_checked <;>
      simp [start_transition, update_pos_color, h]
  refine ⟨h1, ?_⟩
  generalize (start_transition s st).1 = t at h1 ⊢
  simp [start_transition, h1]

/-- C3: both animations created for a user-initiated state change use the
configured duration (settable with `setDuration`, 500 ms after
construction) and the InOutCubic easing curve; the circle animation runs
from `height * 0.1` to `height * 1.1` when checking and in reverse when
unchecking, and the color animation runs from `bg_color` to
`active_color` when checking and in reverse when unchecking. -/
theorem animation_parameters (s : QToggleState) (st : Bool) (d : ℕ) :
    (create_animation s st).duration = s.animation_duration ∧
    (create_bg_color_animation s st).duration = s.animation_duration ∧
    (create_animation s st).easing = EasingCurve.InOutCubic ∧
    (create_bg_color_animation s st).easing = EasingCurve.InOutCubic ∧
    (setDuration s d).animation_duration = d ∧
    QToggle_init.animation_duration = 500 ∧
    (create_animation s true).startValue =
      AnimValue.pos ((s.height : ℚ) * (1/10)) ∧
    (create_animation s true).endValue =
      AnimValue.pos ((s.height : ℚ) * (11/10)) ∧
    (create_animation s false).startValue =
      AnimValue.pos ((s.height : ℚ) * (11/10)) ∧
    (create_animation s false).endValue =
      AnimValue.pos ((s.height : ℚ) * (1/10)) ∧
    (create_bg_color_animation s true).startValue =
      AnimValue.color s.bg_color ∧
    (create_bg_color_animation s true).endValue =
      AnimValue.color s.active_color ∧
    (create_bg_color_animation s false).startValue =
      AnimValue.color s.active_color ∧
    (create_bg_color_animation s false).endValue =
      AnimValue.color s.bg_color ∧
    (start_transition { s with user_checked := true } st).2 =
      [startAnim (create_animation { s with user_checked := true } st),
       startAnim
         (create_bg_color_animation { s with user_checked := true } st)] := by
  refine ⟨rfl, rfl, rfl, rfl, rfl, rfl, rfl, rfl, rfl, rfl, rfl, rfl, rfl,
    rfl, ?_⟩
  simp [start_transition]

/-- C4: when the widget is disabled the paint uses the single
`disabled_color` for the background, the circle and the text; when it is
enabled it uses `intermediate_bg_color`, `circle_color` and `text_color`
respectively (stated for any initialized circle position and intermediate
color). -/
theorem paint_colors (s : QToggleState) (cp : ℚ) (ic : Color) :
    paintEvent { s with enabled := false,
                        circle_pos := some cp,
                        intermediate_bg_color := some ic } =
      some { bgColor := s.disabled_color
             circleColor := s.disabled_color
             textColor := s.disabled_color
             borderRadius := (s.height : ℚ) / 2
             toggleWidth := (s.height : ℚ) * 2
             circleX := cp
             circleY := (s.height : ℚ) * (1/10)
             circleSize := (s.height : ℚ) * (8/10) } ∧
    paintEvent { s with enabled := true,
                        circle_pos := some cp,
                        intermediate_bg_color := some ic } =
      some { bgColor := ic
             circleColor := s.circle_color
             textColor := s.text_color
             borderRadius := (s.height : ℚ) / 2
             toggleWidth := (s.height : ℚ) * 2
             circleX := cp
             circleY := (s.height : ℚ) * (1/10)
             circleSize := (s.height : ℚ) * (8/10) } := by
  exact ⟨rfl, rfl⟩

/-- C6: `hitButton` returns `true` exactly when the point lies inside the
contents rectangle of the widget, so the whole contents area is
clickable. -/
theorem hitButton_contents_rect (s : QToggleState) (p : Point) :
    hitButton s p = true ↔
      ((contentsRect s).x ≤ p.x ∧
       p.x ≤ (contentsRect s).x + (contentsRect s).w - 1 ∧
       (contentsRect s).y ≤ p.y ∧
       p.y ≤ (contentsRect s).y + (contentsRect s).h - 1) := by
  simp [hitButton, Rect.containsB, and_assoc]

/-- C8: each of the five color properties round-trips — setting it stores
exactly the given color — and setting any one of them leaves the other
four unchanged. -/
theorem color_property_roundtrip (s : QToggleState) (c : Color) :
    (set_bg_color s c).bg_color = c ∧
    (set_bg_color s c).circle_color = s.circle_color ∧
    (set_bg_color s c).active_color = s.active_color ∧
    (set_bg_color s c).disabled_color = s.disabled_color ∧
    (set_bg_color s c).text_color = s.text_color ∧
    (set_circle_color s c).circle_color = c ∧
    (set_circle_color s c).bg_color = s.bg_color ∧
    (set_circle_color s c).active_color = s.active_color ∧
    (set_circle_color s c).disabled_color = s.disabled_color ∧
    (set_circle_color s c).text_color = s.text_color ∧
    (set_active_color s c).active_color = c ∧
    (set_active_color s c).bg_color = s.bg_color ∧
    (set_active_color s c).circle_color = s.circle_color ∧
    (set_active_color s c).disabled_color = s.disabled_color ∧
    (set_active_color s c).text_color = s.text_color ∧
    (set_disabled_color s c).disabled_color = c ∧
    (set_disabled_color s c).bg_color = s.bg_color ∧
    (set_disabled_color s c).circle_color = s.circle_color ∧
    (set_disabled_color s c).active_color = s.active_color ∧
    (set_disabled_color s c).text_color = s.text_color ∧
    (set_text_color s c).text_color = c ∧
    (set_text_color s c).bg_color = s.bg_color ∧
    (set_text_color s c).circle_color = s.circle_color ∧
    (set_text_color s c).active_color = s.active_color ∧
    (set_text_color s c).disabled_color = s.disabled_color := by
  exact ⟨rfl, rfl, rfl, rfl, rfl, rfl, rfl, rfl, rfl, rfl, rfl, rfl, rfl,
    rfl, rfl, rfl, rfl, rfl, rfl, rfl, rfl, rfl, rfl, rfl, rfl⟩

/-- C5: the recommended width returned by `sizeHint` equals
`int(height * 2 + text_width * 1.075)` (with `1.075 = 43/40`), the hint
keeps the base checkbox's height, and the width is monotone in both the
widget height and the text width. -/
theorem sizeHint_formula_and_monotone (s s' : QToggleState)
    (base : ℤ × ℤ) (w w' : ℕ)
    (hh : s.height ≤ s'.height) (hw : w ≤ w') :
    (sizeHint s base w).1 =
      pyInt ((s.height : ℚ) * 2 + (w : ℚ) * (43/40)) ∧
    (sizeHint s base w).2 = base.2 ∧
    (sizeHint s base w).1 ≤ (sizeHint s' base w').1 := by
  refine ⟨rfl, rfl, ?_⟩
  have h0 : (0 : ℚ) ≤ (s.height : ℚ) * 2 + (w : ℚ) * (43/40) := by positivity
  have h0' : (0 : ℚ) ≤ (s'.height : ℚ) * 2 + (w' : ℚ) * (43/40) := by
    positivity
  have hc1 : (s.height : ℚ) ≤ (s'.height : ℚ) := by exact_mod_cast hh
  have hc2 : (w : ℚ) ≤ (w' : ℚ) := by exact_mod_cast hw
  have hle : (s.height : ℚ) * 2 + (w : ℚ) * (43/40) ≤
      (s'.height : ℚ) * 2 + (w' : ℚ) * (43/40) := by nlinarith
  show pyInt _ ≤ pyInt _
  rw [pyInt, pyInt, if_pos h0, if_pos h0']
  exact Int.floor_le_floor hle

/-- Witness for C5 at concrete inputs: the default-constructed widget
(height 18) with text widths 0 and 40. -/
theorem sizeHint_formula_and_monotone_witness :
    (sizeHint QToggle_init (0, 17) 0).1 =
      pyInt ((QToggle_init.height : ℚ) * 2 + ((0 : ℕ) : ℚ) * (43/40)) ∧
    (sizeHint QToggle_init (0, 17) 0).2 = ((0 : ℤ), (17 : ℤ)).2 ∧
    (sizeHint QToggle_init (0, 17) 0).1 ≤
      (sizeHint QToggle_init (0, 17) 40).1 :=
  sizeHint_formula_and_monotone QToggle_init QToggle_init (0, 17) 0 40
    (by decide) (by decide)

/-- C10: right after construction both `circle_pos` and
`intermediate_bg_color` are `None`, and in any state whose `circle_pos`
is still `None` the paint routine produces no output (it reads the `None`
position with no guard); a mouse press, `setDuration` and the five color
setters do not initialize `circle_pos`, so the window lasts until the
first show, resize or state change. -/
theorem uninitialized_paint (s : QToggleState) (c : Color) (d : ℕ)
    (h : s.circle_pos = none) :
    QToggle_init.circle_pos = none ∧
    QToggle_init.intermediate_bg_color = none ∧
    paintEvent s = none ∧
    (mousePressEvent s).circle_pos = none ∧
    (setDuration s d).circle_pos = none ∧
    (set_bg_color s c).circle_pos = none ∧
    (set_circle_color s c).circle_pos = none ∧
    (set_active_color s c).circle_pos = none ∧
    (set_disabled_color s c).circle_pos = none ∧
    (set_text_color s c).circle_pos = none := by
  refine ⟨rfl, rfl, ?_, h, h, h, h, h, h, h⟩
  cases hbg : (if s.enabled then s.intermediate_bg_color
      else some s.disabled_color) with
  | none => simp [paintEvent, hbg]
  | some bgc => simp [paintEvent, hbg, h]

/-- Witness for C10 at the concrete default-constructed state. -/
theorem uninitialized_paint_witness :
    QToggle_init.circle_pos = none ∧
    QToggle_init.intermediate_bg_color = none ∧
    paintEvent QToggle_init = none ∧
    (mousePressEvent QToggle_init).circle_pos = none ∧
    (setDuration QToggle_init 0).circle_pos = none ∧
    (set_bg_color QToggle_init ⟨0, 0, 0⟩).circle_pos = none ∧
    (set_circle_color QToggle_init ⟨0, 0, 0⟩).circle_pos = none ∧
    (set_active_color QToggle_init ⟨0, 0, 0⟩).circle_pos = none ∧
    (set_disabled_color QToggle_init ⟨0, 0, 0⟩).circle_pos = none ∧
    (set_text_color QToggle_init ⟨0, 0, 0⟩).circle_pos = none :=
  uninitialized_paint QToggle_init ⟨0, 0, 0⟩ 0 rfl
